import Mathlib

/-!
Verification development for the slim-otel repository: a shallow embedding of
the per-signal session registry (`SessionsList`), the identity parser
(`SplitID`), the exporter's `publishData` push path, the receiver's payload
classifier (`detectAndHandleMessage`), the receiver `Start`/`Shutdown` guard,
and the channel manager's `handleCreateChannel` control verb, together with
theorems settling the specification claims about them.

Conventions of the embedding:
- Go `[]byte` payloads are `Option (List Nat)`: `none` is the nil slice,
  `some bs` a non-nil slice (possibly of length zero).
- Go maps are association lists wrapped in `Option`: `none` is a nil map.
- Fallible Go functions return `Except String` carrying the error message, so
  substring-based error classification can be modelled faithfully.
-/

deriving instance DecidableEq for Except

namespace SlimOtel

/-! ### String helpers (Go `strings.Contains` / `strings.Split`) -/

/-- Is the first char list a prefix of the second? -/
def listIsPrefixOf : List Char → List Char → Bool
  | [], _ => true
  | _ :: _, [] => false
  | a :: as, b :: bs => a = b && listIsPrefixOf as bs

/-- Does the second char list contain the first as a contiguous sublist? -/
def listContainsSub (pat : List Char) : List Char → Bool
  | [] => pat.isEmpty
  | h :: t => listIsPrefixOf pat (h :: t) || listContainsSub pat t

/-- Go `strings.Contains hay pat`. -/
def strContains (hay pat : String) : Bool :=
  listContainsSub pat.toList hay.toList

/-- Go `strings.Split` on a single separator char, over the char list.
`splitOnChar sep cs` always returns one more group than the number of
occurrences of `sep` in `cs`. -/
def splitOnChar (sep : Char) : List Char → List (List Char)
  | [] => [[]]
  | c :: rest =>
    let r := splitOnChar sep rest
    if c = sep then [] :: r
    else
      match r with
      | g :: gs => (c :: g) :: gs
      | [] => [[c]]

/-- Go `strings.Split s "/"`. -/
def goSplitSlash (s : String) : List String :=
  (splitOnChar '/' s.toList).map (fun cs => String.mk cs)

/-! ### Identity names (`slim.Name`, `SplitID`) -/

/-- A three-component identity `org/namespace/app`. -/
structure Name where
  org : String
  ns : String
  app : String
deriving DecidableEq, Repr

/-- `Name.String()`: the components joined by "/". -/
def Name.render (n : Name) : String :=
  n.org ++ "/" ++ n.ns ++ "/" ++ n.app

/-- `SplitID` from `internal/slim/common.go` / `common.go`: split the id on
"/" and require exactly three parts. -/
def SplitID (id : String) : Except String Name :=
  match goSplitSlash id with
  | [a, b, c] => Except.ok ⟨a, b, c⟩
  | _ =>
    Except.error
      ("IDs must be in the format organization/namespace/app-or-stream, got: " ++ id)

/-! ### Association-list maps (Go map observables) -/

/-- Lookup in an association list (first binding wins, as in a Go map with
unique keys). -/
def alookup {α β : Type} [DecidableEq α] : List (α × β) → α → Option β
  | [], _ => none
  | (k, v) :: t, k' => if k = k' then some v else alookup t k'

/-- Key deletion (Go `delete(m, k)`). -/
def aerase {α β : Type} [DecidableEq α] (m : List (α × β)) (k : α) : List (α × β) :=
  m.filter (fun p => p.1 != k)

/-- The key snapshot (Go `maps.Keys`). -/
def akeys {α β : Type} (m : List (α × β)) : List α :=
  m.map Prod.fst

/-- Boolean key-uniqueness of an association list. -/
def nodupKeys {α β : Type} [DecidableEq α] : List (α × β) → Bool
  | [] => true
  | (k, _) :: t => (alookup t k).isNone && nodupKeys t

/-! ### Sessions and the registry -/

/-- Fabric session observables: `SessionId()` and `Destination()` are `none`
when the fabric refuses to report them; `pubErr` is the outcome one
`PublishAndWait` call on this session reports (`none` = success). -/
structure Session where
  sid : Option Nat
  dest : Option Name
  pubErr : Option String
deriving DecidableEq, Repr

/-- The registry state: id-index, name-index and the `id → name` shadow map.
`none` is a nil Go map (the post-`DeleteAll` state). -/
structure SessionsList where
  sessionsByID : Option (List (Nat × Session))
  sessionsByName : Option (List (String × Session))
  idToName : Option (List (Nat × String))
deriving DecidableEq, Repr

/-- `NewSessionsList`: all three maps allocated empty. -/
def NewSessionsList : SessionsList :=
  ⟨some [], some [], some []⟩

/-- `AddSession` (sessions_list.go): reinitialize nil maps, read the session's
id and destination, reject duplicates by id then by name, insert into all
three maps. -/
def AddSession (st : SessionsList) (sess : Session) :
    SessionsList × Except String Unit :=
  let st :=
    match st.sessionsByID with
    | none => ⟨some [], some [], some []⟩
    | some _ => st
  match sess.sid with
  | none => (st, Except.error "session id is not set")
  | some id =>
    match sess.dest with
    | none => (st, Except.error "session name is not set")
    | some name =>
      let byID := st.sessionsByID.getD []
      let byName := st.sessionsByName.getD []
      let i2n := st.idToName.getD []
      if (alookup byID id).isSome then
        (st, Except.error ("session with id " ++ toString id ++ " already exists"))
      else if (alookup byName name.render).isSome then
        (st, Except.error ("session with name " ++ name.render ++ " already exists"))
      else
        (⟨some (byID ++ [(id, sess)]),
          some (byName ++ [(name.render, sess)]),
          some (i2n ++ [(id, name.render)])⟩, Except.ok ())

/-- `GetSessionByID`. -/
def GetSessionByID (st : SessionsList) (id : Nat) : Except String Session :=
  match st.sessionsByID with
  | none => Except.error "sessions map is nil"
  | some m =>
    match alookup m id with
    | none => Except.error ("session with id " ++ toString id ++ " not found")
    | some sess => Except.ok sess

/-- `GetSessionByName`. -/
def GetSessionByName (st : SessionsList) (name : String) : Except String Session :=
  match st.sessionsByName with
  | none => Except.error "sessions map is nil"
  | some m =>
    match alookup m name with
    | none => Except.error ("session with name " ++ name ++ " not found")
    | some sess => Except.ok sess

/-- `RemoveSessionByID`: look up by id, resolve the name through the shadow
map, then delete from all three maps. -/
def RemoveSessionByID (st : SessionsList) (id : Nat) :
    SessionsList × Except String Session :=
  match GetSessionByID st id with
  | Except.error e => (st, Except.error e)
  | Except.ok sess =>
    match alookup (st.idToName.getD []) id with
    | none => (st, Except.error ("session name not found for id " ++ toString id))
    | some name =>
      (⟨(st.sessionsByID.map (fun m => aerase m id)),
        (st.sessionsByName.map (fun m => aerase m name)),
        (st.idToName.map (fun m => aerase m id))⟩, Except.ok sess)

/-- `RemoveSessionByName`: look up by name, read the session's own id, then
delete from all three maps. -/
def RemoveSessionByName (st : SessionsList) (name : String) :
    SessionsList × Except String Session :=
  match GetSessionByName st name with
  | Except.error e => (st, Except.error e)
  | Except.ok sess =>
    match sess.sid with
    | none =>
      (st, Except.error ("failed to get session id for name " ++ name
        ++ ": session id is not set"))
    | some id =>
      (⟨(st.sessionsByID.map (fun m => aerase m id)),
        (st.sessionsByName.map (fun m => aerase m name)),
        (st.idToName.map (fun m => aerase m id))⟩, Except.ok sess)

/-- `DeleteAll`: with a nil app, return without touching state; with a nil
id-map there is nothing to do; otherwise fabric-delete every session (results
only logged) and set all three maps to nil. -/
def DeleteAll (st : SessionsList) (app : Option Unit) : SessionsList :=
  match app with
  | none => st
  | some _ =>
    match st.sessionsByID with
    | none => st
    | some _ => ⟨none, none, none⟩

/-! ### PublishToAll -/

/-- The closed-session marker the fabric uses for publish failures. -/
def closedMarker : String := "Session already closed or dropped"

/-- The publish loop of `PublishToAll` over the key snapshot: skip ids no
longer in the map, collect ids whose publish fails with the closed-session
marker, stop at the first other error. Returns the collected ids and the
error, if any. -/
def publishLoop (byID : List (Nat × Session)) : List Nat → List Nat × Option String
  | [] => ([], none)
  | id :: rest =>
    match alookup byID id with
    | none => publishLoop byID rest
    | some sess =>
      match sess.pubErr with
      | none => publishLoop byID rest
      | some msg =>
        if strContains msg closedMarker then
          let r := publishLoop byID rest
          (id :: r.1, r.2)
        else
          ([], some msg)

/-- `PublishToAll`: reject a nil payload with `missing data`; a nil registry
is a no-op success; otherwise run the publish loop over the key snapshot. -/
def PublishToAll (st : SessionsList) (data : Option (List Nat)) :
    List Nat × Option String :=
  match data with
  | none => ([], some "missing data")
  | some _ =>
    match st.sessionsByID with
    | none => ([], none)
    | some m => publishLoop m (akeys m)

/-! ### Exporter push path (`publishData`, exporter.go) -/

/-- The removal loop of `publishData`: `RemoveSessionByID` for each closed id,
stopping at the first removal error. -/
def removeClosedLoop (st : SessionsList) : List Nat → SessionsList × Option String
  | [] => (st, none)
  | id :: rest =>
    match RemoveSessionByID st id with
    | (st', Except.error e) => (st', some e)
    | (st', Except.ok _) => removeClosedLoop st' rest

/-- `publishData` (exporter.go): publish to all sessions; on a publish error
return it at once; otherwise remove every closed session id that
`PublishToAll` reported. -/
def publishData (st : SessionsList) (data : Option (List Nat)) :
    SessionsList × Option String :=
  match PublishToAll st data with
  | (_, some e) => (st, some e)
  | (closed, none) => removeClosedLoop st closed

/-! ### Receiver payload classifier (`detectAndHandleMessage`, receiver.go) -/

/-- Signal kinds. -/
inductive Signal
  | traces
  | metrics
  | logs
deriving DecidableEq, Repr

/-- What the classifier did with a payload: dispatch to one consumer, or log
the unknown-signal warning. -/
inductive ClassifyAction (T M L : Type)
  | consumeTraces (t : T)
  | consumeMetrics (m : M)
  | consumeLogs (l : L)
  | warnUnknown
deriving DecidableEq, Repr

/-- The classifier's environment: which consumers are wired (Go: the consumer
fields are non-nil) and the external OTLP protobuf unmarshalers, modelled as
functions returning `none` exactly when unmarshalling errors. -/
structure Classifier (T M L : Type) where
  tracesConsumer : Bool
  metricsConsumer : Bool
  logsConsumer : Bool
  unmarshalTraces : List Nat → Option T
  unmarshalMetrics : List Nat → Option M
  unmarshalLogs : List Nat → Option L

/-- `detectAndHandleMessage`: try traces, then metrics, then logs, each
attempted only when that consumer is wired; the first error-free parse is
dispatched and classification stops. Returns the list of attempted
unmarshals (in order) and the resulting action. -/
def detectAndHandleMessage {T M L : Type} (r : Classifier T M L)
    (payload : List Nat) : List Signal × ClassifyAction T M L :=
  let tStep : Option (ClassifyAction T M L) :=
    if r.tracesConsumer then
      match r.unmarshalTraces payload with
      | some t => some (ClassifyAction.consumeTraces t)
      | none => none
    else none
  let tAtt : List Signal := if r.tracesConsumer then [Signal.traces] else []
  match tStep with
  | some act => (tAtt, act)
  | none =>
    let mStep : Option (ClassifyAction T M L) :=
      if r.metricsConsumer then
        match r.unmarshalMetrics payload with
        | some m => some (ClassifyAction.consumeMetrics m)
        | none => none
      else none
    let mAtt : List Signal := if r.metricsConsumer then [Signal.metrics] else []
    match mStep with
    | some act => (tAtt ++ mAtt, act)
    | none =>
      let lStep : Option (ClassifyAction T M L) :=
        if r.logsConsumer then
          match r.unmarshalLogs payload with
          | some l => some (ClassifyAction.consumeLogs l)
          | none => none
        else none
      let lAtt : List Signal := if r.logsConsumer then [Signal.logs] else []
      match lStep with
      | some act => (tAtt ++ mAtt ++ lAtt, act)
      | none => (tAtt ++ mAtt ++ lAtt, ClassifyAction.warnUnknown)

/-! ### Receiver `Start` / `Shutdown` (receiver.go) -/

/-- The receiver's lifecycle-relevant state: the atomic `started` flag, how
many acceptor goroutines were spawned, whether a cancel function is stored,
and the externally visible shutdown effects. -/
structure ReceiverState where
  started : Bool
  listeners : Nat
  hasCancelFunc : Bool
  cancelCalled : Bool
  sessionsDeleted : Bool
  appDestroyed : Bool
deriving DecidableEq, Repr

/-- The state of a freshly constructed receiver. -/
def newReceiverState : ReceiverState :=
  ⟨false, 0, false, false, false, false⟩

/-- `Start`: `started.CompareAndSwap(false, true)`; when it fails, return nil
at once; otherwise store a fresh cancel function and spawn the acceptor. -/
def receiverStart (r : ReceiverState) : ReceiverState × Option String :=
  if r.started then (r, none)
  else
    ({ r with
        started := true
        hasCancelFunc := true
        listeners := r.listeners + 1 }, none)

/-- `Shutdown`: `started.CompareAndSwap(true, false)`; when it fails, return
nil at once; otherwise cancel the listener context (if a cancel function is
stored), delete all sessions, and destroy the app. -/
def receiverShutdown (r : ReceiverState) : ReceiverState × Option String :=
  if !r.started then (r, none)
  else
    ({ r with
        started := false
        cancelCalled := r.cancelCalled || r.hasCancelFunc
        sessionsDeleted := true
        appDestroyed := true }, none)

/-! ### Channel manager control service (`handleCreateChannel`, service.go) -/

/-- A `CreateChannel` request body. -/
structure CreateChannelRequest where
  channelName : String
  mlsEnabled : Bool
deriving DecidableEq, Repr

/-- A `CommandResponse` body. -/
structure CommandResponse where
  msgId : Nat
  success : Bool
  errorMsg : Option String
deriving DecidableEq, Repr

/-- The response envelope (`ControlMessage` carrying a `CommandResponse`). -/
structure ControlMessage where
  mgsId : Nat
  response : CommandResponse
deriving DecidableEq, Repr

/-- `errorResponse`. -/
def errorResponse (msgID : Nat) (errMsg : String) : ControlMessage :=
  ⟨msgID, ⟨msgID, false, some errMsg⟩⟩

/-- `successResponse`. -/
def successResponse (msgID : Nat) : ControlMessage :=
  ⟨msgID, ⟨msgID, true, none⟩⟩

/-- Fabric interactions performed by the handler, as observable events. -/
inductive FabricEvent
  | createOk (name : Name) (mls : Bool) (sess : Session)
  | createErr (name : Name) (mls : Bool)
  | deleteCall (sess : Session)
deriving DecidableEq, Repr

/-- The external fabric behaviour consumed by `handleCreateChannel`:
what `CreateSessionAndWait` returns for a given channel name and MLS flag. -/
structure Fabric where
  createSessionAndWait : Name → Bool → Except String Session

/-- `handleCreateChannel` (service.go): parse the name, reject when a session
with the canonical name is already registered, create a group session via the
fabric, register it, and on registration failure delete the just-created
session before reporting failure. Returns the new registry state, the fabric
events performed, and the response. -/
def handleCreateChannel (fab : Fabric) (st : SessionsList) (msgID : Nat)
    (req : CreateChannelRequest) :
    SessionsList × List FabricEvent × ControlMessage :=
  match SplitID req.channelName with
  | Except.error _ =>
    (st, [], errorResponse msgID ("invalid channel name: " ++ req.channelName))
  | Except.ok channel =>
    let channelStr := channel.render
    match GetSessionByName st channelStr with
    | Except.ok _ =>
      (st, [], errorResponse msgID ("channel " ++ channelStr ++ " already exists"))
    | Except.error _ =>
      match fab.createSessionAndWait channel req.mlsEnabled with
      | Except.error _ =>
        (st, [FabricEvent.createErr channel req.mlsEnabled],
          errorResponse msgID ("failed to create channel " ++ channelStr))
      | Except.ok session =>
        match AddSession st session with
        | (st', Except.error _) =>
          (st', [FabricEvent.createOk channel req.mlsEnabled session,
                 FabricEvent.deleteCall session],
            errorResponse msgID ("failed to complete channel " ++ channelStr
              ++ " creation "))
        | (st', Except.ok _) =>
          (st', [FabricEvent.createOk channel req.mlsEnabled session],
            successResponse msgID)

/-! ### Auxiliary definitions used by the theorems -/

/-- Number of occurrences of a character in a char list. -/
def countChar (sep : Char) : List Char → Nat
  | [] => 0
  | c :: rest => (if c = sep then 1 else 0) + countChar sep rest

/-- Key-uniqueness of an optional map (`none`, the nil map, is trivially
unique). -/
def optWF {α β : Type} [DecidableEq α] : Option (List (α × β)) → Bool
  | none => true
  | some m => nodupKeys m

/-- The registry's uniqueness invariant: at most one session per id and at
most one session per name. -/
def Uniq (st : SessionsList) : Bool :=
  optWF st.sessionsByID && optWF st.sessionsByName

/-- States produced by the registry API never have a nil id-index together
with a live name-index. -/
def nilConsistent (st : SessionsList) : Bool :=
  st.sessionsByID.isSome || st.sessionsByName.isNone

/-- Did publish on the session registered under `k` fail with the
closed-session marker? -/
def closedFail (byID : List (Nat × Session)) (k : Nat) : Bool :=
  match alookup byID k with
  | some sess =>
    match sess.pubErr with
    | some msg => strContains msg closedMarker
    | none => false
  | none => false

/-- Did publish on the session registered under `k` fail with an error not
carrying the closed-session marker? -/
def nonClosedFail (byID : List (Nat × Session)) (k : Nat) : Bool :=
  match alookup byID k with
  | some sess =>
    match sess.pubErr with
    | some msg => !strContains msg closedMarker
    | none => false
  | none => false

/-! ### Helper lemmas -/

theorem listIsPrefixOf_refl (l : List Char) : listIsPrefixOf l l = true := by
  induction l with
  | nil => rfl
  | cons a as ih => simp [listIsPrefixOf, ih]

theorem listContainsSub_append_right (pat xs : List Char) :
    listContainsSub pat (xs ++ pat) = true := by
  induction xs with
  | nil =>
    cases pat with
    | nil => rfl
    | cons h t => simp [listContainsSub, listIsPrefixOf_refl]
  | cons x xs ih => simp [listContainsSub, ih]

/-- A string always contains its own suffix. -/
theorem strContains_append_right (a b : String) :
    strContains (a ++ b) b = true := by
  have h : (a ++ b).toList = a.toList ++ b.toList := by
    simp [String.toList]
  rw [strContains, h]
  exact listContainsSub_append_right _ _

theorem alookup_append {α β : Type} [DecidableEq α] (xs ys : List (α × β)) (k : α) :
    alookup (xs ++ ys) k =
      (match alookup xs k with
       | some v => some v
       | none => alookup ys k) := by
  induction xs with
  | nil => simp [alookup]
  | cons p xs ih =>
    obtain ⟨k', v⟩ := p
    by_cases hk : k' = k
    · simp [alookup, hk]
    · simp [alookup, hk, ih]

theorem alookup_append_of_none {α β : Type} [DecidableEq α]
    {xs : List (α × β)} (ys : List (α × β)) {k : α} (h : alookup xs k = none) :
    alookup (xs ++ ys) k = alookup ys k := by
  rw [alookup_append, h]

theorem aerase_cons {α β : Type} [DecidableEq α] (k₀ : α) (v₀ : β)
    (m : List (α × β)) (k : α) :
    aerase ((k₀, v₀) :: m) k =
      if k₀ = k then aerase m k else (k₀, v₀) :: aerase m k := by
  by_cases h : k₀ = k
  · simp [aerase, List.filter_cons, bne, h]
  · simp [aerase, List.filter_cons, bne, h]

theorem alookup_aerase {α β : Type} [DecidableEq α] (m : List (α × β)) (k k' : α) :
    alookup (aerase m k) k' = if k' = k then none else alookup m k' := by
  induction m with
  | nil => simp [aerase, alookup]
  | cons p m ih =>
    obtain ⟨k₀, v₀⟩ := p
    rw [aerase_cons]
    by_cases h0 : k₀ = k
    · subst h0
      rw [if_pos rfl, ih]
      by_cases h1 : k' = k₀
      · simp [h1, alookup]
      · simp [alookup, h1, Ne.symm h1]
    · rw [if_neg h0]
      by_cases h1 : k' = k₀
      · subst h1
        simp [alookup, h0]
      · have h1' : ¬ k₀ = k' := fun hh => h1 hh.symm
        simp [alookup, h1', ih]

theorem nodupKeys_append_single {α β : Type} [DecidableEq α]
    (m : List (α × β)) (k : α) (v : β)
    (hm : nodupKeys m = true) (hk : alookup m k = none) :
    nodupKeys (m ++ [(k, v)]) = true := by
  induction m with
  | nil => simp [nodupKeys, alookup]
  | cons p m ih =>
    obtain ⟨k₀, v₀⟩ := p
    simp only [nodupKeys, Bool.and_eq_true] at hm
    simp only [alookup] at hk
    by_cases h0 : k₀ = k
    · simp [h0] at hk
    · simp only [h0, if_false] at hk
      have htail := ih hm.2 hk
      simp only [List.cons_append, nodupKeys, Bool.and_eq_true]
      refine ⟨?_, htail⟩
      have hm0 : alookup m k₀ = none := by
        simpa [Option.isNone_iff_eq_none] using hm.1
      show (alookup (m ++ [(k, v)]) k₀).isNone = true
      rw [alookup_append_of_none _ hm0]
      simp only [alookup]
      rw [if_neg (fun hh : k = k₀ => h0 hh.symm)]
      rfl

theorem nodupKeys_aerase {α β : Type} [DecidableEq α] (m : List (α × β)) (k : α)
    (hm : nodupKeys m = true) : nodupKeys (aerase m k) = true := by
  induction m with
  | nil => simp [aerase, nodupKeys]
  | cons p m ih =>
    obtain ⟨k₀, v₀⟩ := p
    simp only [nodupKeys, Bool.and_eq_true] at hm
    rw [aerase_cons]
    by_cases h0 : k₀ = k
    · rw [if_pos h0]
      exact ih hm.2
    · rw [if_neg h0]
      simp only [nodupKeys, Bool.and_eq_true]
      constructor
      · rw [alookup_aerase]
        simp only [h0, if_false]
        simpa using hm.1
      · exact ih hm.2

/-- When no key in the snapshot has a non-closed publish failure, the publish
loop returns exactly the closed-failure keys, in snapshot order, and no
error. -/
theorem publishLoop_all_closed (byID : List (Nat × Session)) :
    ∀ keys : List Nat, (∀ k ∈ keys, nonClosedFail byID k = false) →
      publishLoop byID keys = (keys.filter (fun k => closedFail byID k), none) := by
  intro keys
  induction keys with
  | nil => intro _; rfl
  | cons id rest ih =>
    intro h
    have hid := h id (by simp)
    have hrest : ∀ k ∈ rest, nonClosedFail byID k = false :=
      fun k hk => h k (by simp [hk])
    simp only [publishLoop, List.filter_cons]
    cases hl : alookup byID id with
    | none =>
      rw [show closedFail byID id = false by simp [closedFail, hl]]
      simp only [hl, if_false, Bool.false_eq_true]
      exact ih hrest
    | some sess =>
      cases hp : sess.pubErr with
      | none =>
        rw [show closedFail byID id = false by simp [closedFail, hl, hp]]
        simp only [hl, hp, if_false, Bool.false_eq_true]
        exact ih hrest
      | some msg =>
        cases hc : strContains msg closedMarker with
        | false =>
          exfalso
          simp only [nonClosedFail, hl, hp, hc] at hid
          exact Bool.true_eq_false.mp hid
        | true =>
          rw [show closedFail byID id = true by simp [closedFail, hl, hp, hc]]
          simp only [hl, hp, hc, if_true, ih hrest]

/-- The publish loop stops at the first non-closed failure, returning the
closed ids collected before it together with that failure's error message. -/
theorem publishLoop_stops_at_failure (byID : List (Nat × Session)) :
    ∀ pre : List Nat, ∀ k : Nat, ∀ post : List Nat, ∀ sess : Session, ∀ msg : String,
      (∀ j ∈ pre, nonClosedFail byID j = false) →
      alookup byID k = some sess → sess.pubErr = some msg →
      strContains msg closedMarker = false →
      publishLoop byID (pre ++ k :: post) =
        (pre.filter (fun j => closedFail byID j), some msg) := by
  intro pre
  induction pre with
  | nil =>
    intro k post sess msg _ hl hp hc
    simp only [List.nil_append, publishLoop, hl, hp, hc, List.filter_nil]
    rfl
  | cons j rest ih =>
    intro k post sess msg h hl hp hc
    have hj := h j (by simp)
    have hrest : ∀ i ∈ rest, nonClosedFail byID i = false :=
      fun i hi => h i (by simp [hi])
    have ihr := ih k post sess msg hrest hl hp hc
    simp only [List.cons_append, publishLoop, List.filter_cons]
    cases hlj : alookup byID j with
    | none =>
      rw [show closedFail byID j = false by simp [closedFail, hlj]]
      simp only [hlj, if_false, Bool.false_eq_true]
      exact ihr
    | some sj =>
      cases hpj : sj.pubErr with
      | none =>
        rw [show closedFail byID j = false by simp [closedFail, hlj, hpj]]
        simp only [hlj, hpj, if_false, Bool.false_eq_true]
        exact ihr
      | some msgj =>
        cases hcj : strContains msgj closedMarker with
        | false =>
          exfalso
          simp only [nonClosedFail, hlj, hpj, hcj] at hj
          exact Bool.true_eq_false.mp hj
        | true =>
          rw [show closedFail byID j = true by simp [closedFail, hlj, hpj, hcj]]
          simp only [hlj, hpj, hcj, if_true, List.append_eq] at ihr ⊢
          rw [ihr]

/-- `splitOnChar` always produces one more group than separator
occurrences. -/
theorem splitOnChar_length (sep : Char) :
    ∀ cs : List Char, (splitOnChar sep cs).length = countChar sep cs + 1 := by
  intro cs
  induction cs with
  | nil => rfl
  | cons c rest ih =>
    by_cases hc : c = sep
    · subst hc
      have h1 : splitOnChar c (c :: rest) = [] :: splitOnChar c rest := by
        simp [splitOnChar]
      rw [h1, List.length_cons, ih,
        show countChar c (c :: rest) = 1 + countChar c rest from by simp [countChar]]
      omega
    · simp only [splitOnChar, countChar, if_neg hc]
      cases hr : splitOnChar sep rest with
      | nil => rw [hr] at ih; simp at ih
      | cons g gs =>
        rw [hr] at ih
        simp only [List.length_cons] at ih ⊢
        omega

theorem listContainsSub_append_left (pat xs ys : List Char)
    (h : listContainsSub pat ys = true) : listContainsSub pat (xs ++ ys) = true := by
  induction xs with
  | nil => simpa using h
  | cons x xs ih => simp [listContainsSub, ih]

/-- Containment in a string extends through prepended text. -/
theorem strContains_append_of_right (a b pat : String)
    (h : strContains b pat = true) : strContains (a ++ b) pat = true := by
  have ht : (a ++ b).toList = a.toList ++ b.toList := by
    simp [String.toList]
  rw [strContains, ht]
  exact listContainsSub_append_left _ _ _ h

/-- `AddSession` on a registry whose id-index already holds the session's id:
error, state untouched. -/
theorem addSession_dup_id (m : List (Nat × Session))
    (oN : Option (List (String × Session))) (oI : Option (List (Nat × String)))
    (sess : Session) (i : Nat) (s₀ : Session)
    (hsid : sess.sid = some i) (hdup : alookup m i = some s₀) :
    ∃ e, AddSession ⟨some m, oN, oI⟩ sess = (⟨some m, oN, oI⟩, Except.error e) := by
  simp only [AddSession, hsid]
  cases hd : sess.dest with
  | none => exact ⟨"session name is not set", rfl⟩
  | some nm =>
    refine ⟨"session with id " ++ toString i ++ " already exists", ?_⟩
    simp [Option.getD, hdup]

/-- `AddSession` on a registry whose name-index already holds the session's
destination name: error, state untouched. -/
theorem addSession_dup_name (m : List (Nat × Session))
    (mn : List (String × Session)) (oI : Option (List (Nat × String)))
    (sess : Session) (nm : Name) (s₀ : Session)
    (hdest : sess.dest = some nm) (hdup : alookup mn nm.render = some s₀) :
    ∃ e, AddSession ⟨some m, some mn, oI⟩ sess = (⟨some m, some mn, oI⟩, Except.error e) := by
  simp only [AddSession, hdest]
  cases hs : sess.sid with
  | none => exact ⟨"session id is not set", rfl⟩
  | some i =>
    cases hl : alookup m i with
    | some s₁ =>
      refine ⟨"session with id " ++ toString i ++ " already exists", ?_⟩
      simp [Option.getD, hl]
    | none =>
      refine ⟨"session with name " ++ nm.render ++ " already exists", ?_⟩
      simp [Option.getD, hl, hdup]

/-- `AddSession` preserves the per-id and per-name uniqueness invariant. -/
theorem addSession_uniq (st : SessionsList) (sess : Session)
    (h : Uniq st = true) : Uniq (AddSession st sess).1 = true := by
  obtain ⟨oID, oN, oI⟩ := st
  simp only [Uniq, Bool.and_eq_true] at h
  cases oID with
  | none =>
    -- reinitialized registry: the base state is empty
    cases hs : sess.sid with
    | none => simp [AddSession, hs, Uniq, optWF, nodupKeys]
    | some i =>
      cases hd : sess.dest with
      | none => simp [AddSession, hs, hd, Uniq, optWF, nodupKeys]
      | some nm =>
        simp [AddSession, hs, hd, Uniq, optWF, nodupKeys, alookup, Option.getD]
  | some m =>
    cases hs : sess.sid with
    | none => simpa [AddSession, hs, Uniq, optWF] using h
    | some i =>
      cases hd : sess.dest with
      | none => simpa [AddSession, hs, hd, Uniq, optWF] using h
      | some nm =>
        have hm : nodupKeys m = true := by simpa [optWF] using h.1
        have hmn : nodupKeys (oN.getD []) = true := by
          cases oN with
          | none => rfl
          | some mn => simpa [optWF] using h.2
        simp only [AddSession, hs, hd, Option.getD_some]
        cases hl : alookup m i with
        | some s₁ => simpa [hl, Uniq, optWF] using h
        | none =>
          cases hln : alookup (oN.getD []) nm.render with
          | some s₁ => simpa [hl, hln, Uniq, optWF] using h
          | none =>
            simp only [hl, hln, Option.isSome_none, Bool.false_eq_true, if_false,
              Uniq, optWF, Bool.and_eq_true]
            exact ⟨nodupKeys_append_single m i sess hm hl,
              nodupKeys_append_single (oN.getD []) nm.render sess hmn hln⟩

/-- `RemoveSessionByID` preserves the uniqueness invariant. -/
theorem removeSessionByID_uniq (st : SessionsList) (i : Nat)
    (h : Uniq st = true) : Uniq (RemoveSessionByID st i).1 = true := by
  obtain ⟨oID, oN, oI⟩ := st
  simp only [Uniq, Bool.and_eq_true] at h
  simp only [RemoveSessionByID]
  cases hget : GetSessionByID ⟨oID, oN, oI⟩ i with
  | error e => simpa [Uniq, optWF, Bool.and_eq_true] using h
  | ok sess =>
    cases hl : alookup (oI.getD []) i with
    | none => simpa [Uniq, optWF, Bool.and_eq_true] using h
    | some name =>
      simp only [Uniq, Bool.and_eq_true]
      constructor
      · cases oID with
        | none => simp [optWF]
        | some m =>
          simpa [optWF] using nodupKeys_aerase m i (by simpa [optWF] using h.1)
      · cases oN with
        | none => simp [optWF]
        | some mn =>
          simpa [optWF] using nodupKeys_aerase mn name (by simpa [optWF] using h.2)

/-- `RemoveSessionByName` preserves the uniqueness invariant. -/
theorem removeSessionByName_uniq (st : SessionsList) (name : String)
    (h : Uniq st = true) : Uniq (RemoveSessionByName st name).1 = true := by
  obtain ⟨oID, oN, oI⟩ := st
  simp only [Uniq, Bool.and_eq_true] at h
  simp only [RemoveSessionByName]
  cases hget : GetSessionByName ⟨oID, oN, oI⟩ name with
  | error e => simpa [Uniq, optWF, Bool.and_eq_true] using h
  | ok sess =>
    cases hs : sess.sid with
    | none => simpa [hs, Uniq, optWF, Bool.and_eq_true] using h
    | some i =>
      simp only [hs, Uniq, Bool.and_eq_true]
      constructor
      · cases oID with
        | none => simp [optWF]
        | some m =>
          simpa [optWF] using nodupKeys_aerase m i (by simpa [optWF] using h.1)
      · cases oN with
        | none => simp [optWF]
        | some mn =>
          simpa [optWF] using nodupKeys_aerase mn name (by simpa [optWF] using h.2)

/-- `DeleteAll` preserves the uniqueness invariant. -/
theorem deleteAll_uniq (st : SessionsList) (app : Option Unit)
    (h : Uniq st = true) : Uniq (DeleteAll st app) = true := by
  obtain ⟨oID, oN, oI⟩ := st
  cases app with
  | none => exact h
  | some _ =>
    cases oID with
    | none => exact h
    | some m => simp [DeleteAll, Uniq, optWF]

/-- A successful `AddSession` registers the session under its destination
name. -/
theorem addSession_ok_getByName (st : SessionsList) (sess : Session) (nm : Name)
    (hdest : sess.dest = some nm)
    (hok : (AddSession st sess).2 = Except.ok ()) :
    GetSessionByName (AddSession st sess).1 nm.render = Except.ok sess := by
  obtain ⟨oID, oN, oI⟩ := st
  cases oID with
  | none =>
    cases hs : sess.sid with
    | none => simp [AddSession, hs] at hok
    | some i =>
      simp only [AddSession, hs, hdest, Option.getD_some, alookup,
        Option.isSome_none, Bool.false_eq_true, if_false]
      simp [GetSessionByName, alookup]
  | some m =>
    cases hs : sess.sid with
    | none => simp [AddSession, hs] at hok
    | some i =>
      simp only [AddSession, hs, hdest, Option.getD_some] at hok ⊢
      cases hl : alookup m i with
      | some s₁ => simp [hl] at hok
      | none =>
        cases hln : alookup (oN.getD []) nm.render with
        | some s₁ => simp [hl, hln] at hok
        | none =>
          simp only [hl, hln, Option.isSome_none, Bool.false_eq_true, if_false]
          simp only [GetSessionByName]
          rw [alookup_append_of_none _ hln]
          simp [alookup]

/-- A failed `AddSession` registers nothing: the sessions retrievable by name
are exactly those of the original state. -/
theorem addSession_err_getByName (st : SessionsList) (sess : Session) (e : String)
    (hcons : nilConsistent st = true)
    (herr : (AddSession st sess).2 = Except.error e) :
    ∀ n s, (GetSessionByName (AddSession st sess).1 n = Except.ok s ↔
      GetSessionByName st n = Except.ok s) := by
  intro n s
  obtain ⟨oID, oN, oI⟩ := st
  cases oID with
  | none =>
    -- the original name-index is nil by consistency: neither side can succeed
    have hoN : oN = none := by
      simpa [nilConsistent, Option.isNone_iff_eq_none] using hcons
    subst hoN
    cases hs : sess.sid with
    | none => simp [AddSession, hs, GetSessionByName, alookup]
    | some i =>
      cases hd : sess.dest with
      | none => simp [AddSession, hs, hd, GetSessionByName, alookup]
      | some nm =>
        simp [AddSession, hs, hd, alookup] at herr
  | some m =>
    cases hs : sess.sid with
    | none => simp [AddSession, hs]
    | some i =>
      cases hd : sess.dest with
      | none => simp [AddSession, hs, hd]
      | some nm =>
        simp only [AddSession, hs, hd, Option.getD_some] at herr ⊢
        cases hl : alookup m i with
        | some s₁ => simp [hl] at herr ⊢
        | none =>
          cases hln : alookup (oN.getD []) nm.render with
          | some s₁ => simp [hl, hln] at herr ⊢
          | none => simp [hl, hln] at herr

/-! ### Concrete fixtures -/

/-- Channel name `agntcy/ns/a`. -/
def destA : Name := ⟨"agntcy", "ns", "a"⟩

/-- Channel name `agntcy/ns/b`. -/
def destB : Name := ⟨"agntcy", "ns", "b"⟩

/-- A session (id 1) whose publish reports the closed-session error. -/
def sessClosed : Session := ⟨some 1, some destA, some closedMarker⟩

/-- A session (id 2) whose publish succeeds. -/
def sessOK : Session := ⟨some 2, some destB, none⟩

/-- A session (id 2) whose publish fails with a non-closed error. -/
def sessBoom : Session := ⟨some 2, some destB, some "boom"⟩

/-- Registry holding `sessClosed` and `sessOK`. -/
def stPrune : SessionsList :=
  ⟨some [(1, sessClosed), (2, sessOK)],
   some [("agntcy/ns/a", sessClosed), ("agntcy/ns/b", sessOK)],
   some [(1, "agntcy/ns/a"), (2, "agntcy/ns/b")]⟩

/-- `stPrune` with session 1 removed: exactly session 2 remains. -/
def stPruneAfter : SessionsList :=
  ⟨some [(2, sessOK)], some [("agntcy/ns/b", sessOK)], some [(2, "agntcy/ns/b")]⟩

/-- Registry holding `sessClosed` and `sessBoom`. -/
def stBoom : SessionsList :=
  ⟨some [(1, sessClosed), (2, sessBoom)],
   some [("agntcy/ns/a", sessClosed), ("agntcy/ns/b", sessBoom)],
   some [(1, "agntcy/ns/a"), (2, "agntcy/ns/b")]⟩

/-! ### Claim theorems -/

/-- C1: `AddSession` rejects a second session with an already-registered id or
an already-registered canonical name, returning an error and leaving the
id-index, name-index and id-to-name shadow map unchanged; and per-id /
per-name uniqueness of the registry is preserved by `AddSession`,
`RemoveSessionByID`, `RemoveSessionByName` and `DeleteAll`. -/
theorem C1_registry_uniqueness :
    (∀ (m : List (Nat × Session)) (oN : Option (List (String × Session)))
        (oI : Option (List (Nat × String))) (sess : Session) (i : Nat) (s₀ : Session),
      sess.sid = some i → alookup m i = some s₀ →
      ∃ e, AddSession ⟨some m, oN, oI⟩ sess = (⟨some m, oN, oI⟩, Except.error e))
    ∧ (∀ (m : List (Nat × Session)) (mn : List (String × Session))
        (oI : Option (List (Nat × String))) (sess : Session) (nm : Name) (s₀ : Session),
      sess.dest = some nm → alookup mn nm.render = some s₀ →
      ∃ e, AddSession ⟨some m, some mn, oI⟩ sess = (⟨some m, some mn, oI⟩, Except.error e))
    ∧ (∀ st sess, Uniq st = true → Uniq (AddSession st sess).1 = true)
    ∧ (∀ st i, Uniq st = true → Uniq (RemoveSessionByID st i).1 = true)
    ∧ (∀ st n, Uniq st = true → Uniq (RemoveSessionByName st n).1 = true)
    ∧ (∀ st app, Uniq st = true → Uniq (DeleteAll st app) = true) :=
  ⟨fun m oN oI sess i s₀ hs hd => addSession_dup_id m oN oI sess i s₀ hs hd,
   fun m mn oI sess nm s₀ hd hdup => addSession_dup_name m mn oI sess nm s₀ hd hdup,
   addSession_uniq, removeSessionByID_uniq, removeSessionByName_uniq, deleteAll_uniq⟩

theorem C1_registry_uniqueness_witness :
    (∃ e, AddSession stPrune ⟨some 1, some ⟨"x", "y", "z"⟩, none⟩
      = (stPrune, Except.error e))
    ∧ (∃ e, AddSession stPrune ⟨some 9, some destA, none⟩
      = (stPrune, Except.error e))
    ∧ Uniq (AddSession stPrune ⟨some 9, some ⟨"x", "y", "z"⟩, none⟩).1 = true
    ∧ Uniq (RemoveSessionByID stPrune 1).1 = true
    ∧ Uniq (RemoveSessionByName stPrune "agntcy/ns/a").1 = true
    ∧ Uniq (DeleteAll stPrune (some ())) = true :=
  ⟨C1_registry_uniqueness.1 _ _ _ _ 1 sessClosed rfl (by decide),
   C1_registry_uniqueness.2.1 _ _ _ _ destA sessClosed rfl (by decide),
   C1_registry_uniqueness.2.2.1 stPrune _ (by decide),
   C1_registry_uniqueness.2.2.2.1 stPrune 1 (by decide),
   C1_registry_uniqueness.2.2.2.2.1 stPrune "agntcy/ns/a" (by decide),
   C1_registry_uniqueness.2.2.2.2.2 stPrune (some ()) (by decide)⟩

/-- C2: `PublishToAll` (on a non-nil payload) runs the publish loop over the
key snapshot of the id-index; the loop collects exactly the closed-failure
ids when no non-closed failure occurs (returning them with no error) and
stops at the first non-closed failure, returning the ids collected so far
together with that error; concretely, with session 1 failing closed and
session 2 succeeding, it returns `([1], none)` and removing id 1 afterwards
leaves exactly session 2 registered. -/
theorem C2_publishToAll_behavior :
    (∀ st (d : List Nat) m, st.sessionsByID = some m →
      PublishToAll st (some d) = publishLoop m (akeys m))
    ∧ (∀ byID keys, (∀ k ∈ keys, nonClosedFail byID k = false) →
      publishLoop byID keys = (keys.filter (fun k => closedFail byID k), none))
    ∧ (∀ byID pre k post sess msg, (∀ j ∈ pre, nonClosedFail byID j = false) →
      alookup byID k = some sess → sess.pubErr = some msg →
      strContains msg closedMarker = false →
      publishLoop byID (pre ++ k :: post)
        = (pre.filter (fun j => closedFail byID j), some msg))
    ∧ (PublishToAll stPrune (some [112]) = ([1], none)
       ∧ RemoveSessionByID stPrune 1 = (stPruneAfter, Except.ok sessClosed)
       ∧ akeys (stPruneAfter.sessionsByID.getD []) = [2]) := by
  refine ⟨?_, publishLoop_all_closed, publishLoop_stops_at_failure, ?_⟩
  · intro st d m h
    obtain ⟨oID, oN, oI⟩ := st
    simp only at h
    subst h
    rfl
  · refine ⟨by decide, by decide, by decide⟩

theorem C2_publishToAll_behavior_witness :
    PublishToAll stPrune (some [112])
      = publishLoop [(1, sessClosed), (2, sessOK)] (akeys [(1, sessClosed), (2, sessOK)])
    ∧ publishLoop [(1, sessClosed), (2, sessOK)] [1, 2]
      = ([1, 2].filter (fun k => closedFail [(1, sessClosed), (2, sessOK)] k), none)
    ∧ publishLoop [(1, sessClosed), (2, sessBoom)] ([1] ++ 2 :: [])
      = ([1].filter (fun j => closedFail [(1, sessClosed), (2, sessBoom)] j), some "boom") :=
  ⟨C2_publishToAll_behavior.1 stPrune [112] _ rfl,
   C2_publishToAll_behavior.2.1 _ [1, 2] (by decide),
   C2_publishToAll_behavior.2.2.1 _ [1] 2 [] sessBoom "boom" (by decide) (by decide)
     (by decide) (by decide)⟩

/-- C3 counterexample: with session 1 failing closed and session 2 failing
with the non-closed error "boom" (in that snapshot order), `PublishToAll`
returns the non-empty closed list `[1]` together with the error, but
`publishData` returns the error immediately with the registry untouched —
session 1 is still registered, contradicting the claim that every returned
closed id is removed before push returns. -/
theorem C3_publishData_counterexample :
    PublishToAll stBoom (some [7]) = ([1], some "boom")
    ∧ publishData stBoom (some [7]) = (stBoom, some "boom")
    ∧ GetSessionByID stBoom 1 = Except.ok sessClosed := by
  refine ⟨by decide, by decide, by decide⟩

/-- C3 (amended): closed ids are pruned only when `PublishToAll` itself
returns no error; when it returns a non-closed error, `publishData`
propagates that error to its caller at once and removes nothing — even when
the closed-id list is non-empty; in the error-free case every returned
closed id is removed through the removal loop (concretely, pruning id 1
leaves exactly session 2). -/
theorem C3_publishData_amended :
    (∀ st d closed e, PublishToAll st d = (closed, some e) →
      publishData st d = (st, some e))
    ∧ (∀ st d closed, PublishToAll st d = (closed, none) →
      publishData st d = removeClosedLoop st closed)
    ∧ (publishData stPrune (some [7]) = (stPruneAfter, none)
       ∧ GetSessionByID stPruneAfter 1 = Except.error "session with id 1 not found"
       ∧ GetSessionByID stPruneAfter 2 = Except.ok sessOK) := by
  refine ⟨?_, ?_, by decide, by decide, by decide⟩
  · intro st d closed e h
    simp [publishData, h]
  · intro st d closed h
    simp [publishData, h]

theorem C3_publishData_amended_witness :
    publishData stBoom (some [7]) = (stBoom, some "boom")
    ∧ publishData stPrune (some [7]) = removeClosedLoop stPrune [1] :=
  ⟨C3_publishData_amended.1 stBoom (some [7]) [1] "boom" (by decide),
   C3_publishData_amended.2.1 stPrune (some [7]) [1] (by decide)⟩

/-- C4 counterexample: a non-nil zero-length payload is not rejected with
`missing data`; the publish loop runs over the sessions (session 1's publish
is attempted and its closed failure collected). -/
theorem C4_publish_empty_counterexample :
    PublishToAll stPrune (some []) = ([1], none) := by decide

/-- C4 (amended): `PublishToAll` fails with `missing data` only for a nil
payload (returning no closed ids), for every registry state; a non-nil
zero-length payload is treated like any other payload — the publish loop
runs over the key snapshot. -/
theorem C4_missing_data_amended :
    (∀ st, PublishToAll st none = ([], some "missing data"))
    ∧ (∀ st (d : List Nat) m, st.sessionsByID = some m →
      PublishToAll st (some d) = publishLoop m (akeys m)) := by
  refine ⟨fun st => rfl, ?_⟩
  intro st d m h
  obtain ⟨oID, oN, oI⟩ := st
  simp only at h
  subst h
  rfl

theorem C4_missing_data_amended_witness :
    PublishToAll stPrune none = ([], some "missing data")
    ∧ PublishToAll stPrune (some [])
      = publishLoop [(1, sessClosed), (2, sessOK)] (akeys [(1, sessClosed), (2, sessOK)]) :=
  ⟨C4_missing_data_amended.1 stPrune,
   C4_missing_data_amended.2 stPrune [] _ rfl⟩

/-- `goSplitSlash` always yields one more segment than "/" occurrences. -/
theorem goSplitSlash_length (s : String) :
    (goSplitSlash s).length = countChar '/' s.toList + 1 := by
  simp [goSplitSlash, splitOnChar_length]

/-- C5 counterexample: an identity string with an empty middle segment is
accepted by `SplitID` (only the segment count is checked), contradicting the
claim that any empty segment is rejected. -/
theorem C5_splitID_counterexample :
    SplitID "a//b" = Except.ok ⟨"a", "", "b"⟩
    ∧ countChar '/' "a//b".toList = 2 := by
  refine ⟨by decide, by decide⟩

/-- C5 (amended): `SplitID s` fails exactly when `s` does not contain exactly
two "/" separators; empty segments are not rejected, and on success the
returned `Name`'s components are exactly the three (possibly empty) segments
of `s`. -/
theorem C5_splitID_amended :
    (∀ s : String, (∃ e, SplitID s = Except.error e) ↔ countChar '/' s.toList ≠ 2)
    ∧ (∀ (s : String) (n : Name), SplitID s = Except.ok n →
      goSplitSlash s = [n.org, n.ns, n.app]) := by
  constructor
  · intro s
    have hlen := goSplitSlash_length s
    cases hxs : goSplitSlash s with
    | nil => rw [hxs] at hlen; simp at hlen
    | cons a t1 =>
      cases t1 with
      | nil =>
        rw [hxs] at hlen
        simp only [List.length_cons, List.length_nil] at hlen
        simp only [SplitID, hxs]
        constructor
        · intro _; omega
        · intro _; exact ⟨_, rfl⟩
      | cons b t2 =>
        cases t2 with
        | nil =>
          rw [hxs] at hlen
          simp only [List.length_cons, List.length_nil] at hlen
          simp only [SplitID, hxs]
          constructor
          · intro _; omega
          · intro _; exact ⟨_, rfl⟩
        | cons c t3 =>
          cases t3 with
          | nil =>
            rw [hxs] at hlen
            simp only [List.length_cons, List.length_nil] at hlen
            simp only [SplitID, hxs]
            constructor
            · rintro ⟨e, he⟩
              exact absurd he (by simp)
            · intro hc; omega
          | cons d t4 =>
            rw [hxs] at hlen
            simp only [List.length_cons] at hlen
            simp only [SplitID, hxs]
            constructor
            · intro _; omega
            · intro _; exact ⟨_, rfl⟩
  · intro s n h
    cases hxs : goSplitSlash s with
    | nil => simp [SplitID, hxs] at h
    | cons a t1 =>
      cases t1 with
      | nil => simp [SplitID, hxs] at h
      | cons b t2 =>
        cases t2 with
        | nil => simp [SplitID, hxs] at h
        | cons c t3 =>
          cases t3 with
          | nil =>
            simp only [SplitID, hxs, Except.ok.injEq] at h
            subst h
            rfl
          | cons d t4 => simp [SplitID, hxs] at h

theorem C5_splitID_amended_witness :
    ((∃ e, SplitID "a/b" = Except.error e) ↔ countChar '/' "a/b".toList ≠ 2)
    ∧ goSplitSlash "agntcy/ns/c" = ["agntcy", "ns", "c"] :=
  ⟨C5_splitID_amended.1 "a/b",
   C5_splitID_amended.2 "agntcy/ns/c" ⟨"agntcy", "ns", "c"⟩ (by decide)⟩

/-- C6: after `DeleteAll` with a non-nil fabric app, every getter and remover
reports the `sessions map is nil` (Uninitialized) error, for every id and
name, and the removers leave the deleted state untouched. -/
theorem C6_deleteAll_uninitialized :
    ∀ st : SessionsList, nilConsistent st = true → ∀ (i : Nat) (n : String),
      GetSessionByID (DeleteAll st (some ())) i = Except.error "sessions map is nil"
      ∧ GetSessionByName (DeleteAll st (some ())) n = Except.error "sessions map is nil"
      ∧ RemoveSessionByID (DeleteAll st (some ())) i
          = (DeleteAll st (some ()), Except.error "sessions map is nil")
      ∧ RemoveSessionByName (DeleteAll st (some ())) n
          = (DeleteAll st (some ()), Except.error "sessions map is nil") := by
  intro st hcons i n
  obtain ⟨oID, oN, oI⟩ := st
  cases oID with
  | some m =>
    simp [DeleteAll, GetSessionByID, GetSessionByName,
      RemoveSessionByID, RemoveSessionByName]
  | none =>
    have hoN : oN = none := by
      simpa [nilConsistent, Option.isNone_iff_eq_none] using hcons
    subst hoN
    simp [DeleteAll, GetSessionByID, GetSessionByName,
      RemoveSessionByID, RemoveSessionByName]

theorem C6_deleteAll_uninitialized_witness :
    GetSessionByID (DeleteAll stPrune (some ())) 1 = Except.error "sessions map is nil"
    ∧ GetSessionByName (DeleteAll stPrune (some ())) "agntcy/ns/a"
        = Except.error "sessions map is nil"
    ∧ RemoveSessionByID (DeleteAll stPrune (some ())) 1
        = (DeleteAll stPrune (some ()), Except.error "sessions map is nil")
    ∧ RemoveSessionByName (DeleteAll stPrune (some ())) "agntcy/ns/a"
        = (DeleteAll stPrune (some ()), Except.error "sessions map is nil") :=
  C6_deleteAll_uninitialized stPrune (by decide) 1 "agntcy/ns/a"

/-- C7: the classifier attempts a traces unmarshal exactly when a traces
consumer is wired; any error-free traces parse is dispatched to the traces
consumer and classification stops (metrics and logs are neither attempted
nor called); metrics and logs unmarshals are attempted only under the same
consumer-wired condition, in order, after the earlier kinds failed to parse.
In particular, for a payload produced by the OTLP traces marshaler — whose
unmarshal round-trip succeeds — the traces consumer receives it whenever it
is wired. -/
theorem C7_classifier_dispatch :
    (∀ (T M L : Type) (r : Classifier T M L) (p : List Nat),
      Signal.traces ∈ (detectAndHandleMessage r p).1 ↔ r.tracesConsumer = true)
    ∧ (∀ (T M L : Type) (r : Classifier T M L) (p : List Nat) (t : T),
      r.tracesConsumer = true → r.unmarshalTraces p = some t →
      detectAndHandleMessage r p = ([Signal.traces], ClassifyAction.consumeTraces t))
    ∧ (∀ (T M L : Type) (r : Classifier T M L) (p : List Nat),
      Signal.metrics ∈ (detectAndHandleMessage r p).1 ↔
        (r.metricsConsumer = true ∧ (r.tracesConsumer = true → r.unmarshalTraces p = none)))
    ∧ (∀ (T M L : Type) (r : Classifier T M L) (p : List Nat),
      Signal.logs ∈ (detectAndHandleMessage r p).1 ↔
        (r.logsConsumer = true
          ∧ (r.tracesConsumer = true → r.unmarshalTraces p = none)
          ∧ (r.metricsConsumer = true → r.unmarshalMetrics p = none))) := by
  refine ⟨?_, ?_, ?_, ?_⟩
  · intro T M L r p
    obtain ⟨tc, mc, lc, ut, um, ul⟩ := r
    cases tc <;> cases mc <;> cases lc <;>
      cases hut : ut p <;> cases hum : um p <;> cases hul : ul p <;>
        simp [detectAndHandleMessage, hut, hum, hul]
  · intro T M L r p t hT hU
    simp [detectAndHandleMessage, hT, hU]
  · intro T M L r p
    obtain ⟨tc, mc, lc, ut, um, ul⟩ := r
    cases tc <;> cases mc <;> cases lc <;>
      cases hut : ut p <;> cases hum : um p <;> cases hul : ul p <;>
        simp [detectAndHandleMessage, hut, hum, hul]
  · intro T M L r p
    obtain ⟨tc, mc, lc, ut, um, ul⟩ := r
    cases tc <;> cases mc <;> cases lc <;>
      cases hut : ut p <;> cases hum : um p <;> cases hul : ul p <;>
        simp [detectAndHandleMessage, hut, hum, hul]

/-- A toy classifier environment used to witness the classifier theorem. -/
def clTest : Classifier Nat Nat Nat :=
  ⟨true, true, true,
   fun p => if p = [1] then some 5 else none,
   fun p => if p = [2] then some 6 else none,
   fun p => if p = [3] then some 7 else none⟩

theorem C7_classifier_dispatch_witness :
    detectAndHandleMessage clTest [1] = ([Signal.traces], ClassifyAction.consumeTraces 5)
    ∧ (Signal.traces ∈ (detectAndHandleMessage clTest [2]).1 ↔ clTest.tracesConsumer = true)
    ∧ (Signal.metrics ∈ (detectAndHandleMessage clTest [2]).1 ↔
        (clTest.metricsConsumer = true
          ∧ (clTest.tracesConsumer = true → clTest.unmarshalTraces [2] = none))) :=
  ⟨C7_classifier_dispatch.2.1 Nat Nat Nat clTest [1] 5 rfl (by decide),
   C7_classifier_dispatch.1 Nat Nat Nat clTest [2],
   C7_classifier_dispatch.2.2.1 Nat Nat Nat clTest [2]⟩

/-- C8: a `CreateChannel` whose parsed canonical name is already registered
returns a failed `CommandResponse` whose message contains "already exists",
with the request's msg id echoed, performing no fabric call and no registry
mutation; a first `CreateChannel` for a fresh name whose fabric session
creation and registration succeed returns success and leaves the session
registered under its destination name. -/
theorem C8_createChannel_duplicate :
    (∀ (fab : Fabric) (st : SessionsList) (msgID : Nat) (req : CreateChannelRequest)
        (ch : Name) (s : Session),
      SplitID req.channelName = Except.ok ch →
      GetSessionByName st ch.render = Except.ok s →
      handleCreateChannel fab st msgID req
        = (st, [], errorResponse msgID ("channel " ++ ch.render ++ " already exists"))
      ∧ strContains ("channel " ++ ch.render ++ " already exists") "already exists" = true
      ∧ (errorResponse msgID ("channel " ++ ch.render ++ " already exists")).mgsId = msgID
      ∧ (errorResponse msgID ("channel " ++ ch.render ++ " already exists")).response.success
          = false)
    ∧ (∀ (fab : Fabric) (st : SessionsList) (msgID : Nat) (req : CreateChannelRequest)
        (ch : Name) (e' : String) (sess : Session),
      SplitID req.channelName = Except.ok ch →
      GetSessionByName st ch.render = Except.error e' →
      fab.createSessionAndWait ch req.mlsEnabled = Except.ok sess →
      (AddSession st sess).2 = Except.ok () →
      handleCreateChannel fab st msgID req
        = ((AddSession st sess).1, [FabricEvent.createOk ch req.mlsEnabled sess],
           successResponse msgID)
      ∧ (successResponse msgID).response.success = true
      ∧ (∀ nm : Name, sess.dest = some nm →
          GetSessionByName (AddSession st sess).1 nm.render = Except.ok sess)) := by
  constructor
  · intro fab st msgID req ch s hsp hget
    refine ⟨?_, ?_, rfl, rfl⟩
    · simp only [handleCreateChannel, hsp, hget]
    · have h1 : strContains " already exists" "already exists" = true := by decide
      have h2 := strContains_append_of_right ch.render " already exists"
        "already exists" h1
      exact strContains_append_of_right "channel " (ch.render ++ " already exists")
        "already exists" h2
  · intro fab st msgID req ch e' sess hsp hget hcr hok
    refine ⟨?_, rfl, ?_⟩
    · simp only [handleCreateChannel, hsp, hget, hcr]
      cases hadd : AddSession st sess with
      | mk st2 r =>
        rw [hadd] at hok
        simp only at hok
        cases r with
        | error e2 => exact absurd hok (by simp)
        | ok u =>
          cases u
          simp
    · intro nm hnm
      exact addSession_ok_getByName st sess nm hnm hok

theorem C8_createChannel_duplicate_witness :
    (handleCreateChannel ⟨fun n _ => Except.ok ⟨some 5, some n, none⟩⟩ stPrune 43
        ⟨"agntcy/ns/a", false⟩
      = (stPrune, [], errorResponse 43 ("channel " ++ destA.render ++ " already exists"))
      ∧ strContains ("channel " ++ destA.render ++ " already exists") "already exists" = true
      ∧ (errorResponse 43 ("channel " ++ destA.render ++ " already exists")).mgsId = 43
      ∧ (errorResponse 43 ("channel " ++ destA.render ++ " already exists")).response.success
          = false) :=
  C8_createChannel_duplicate.1 ⟨fun n _ => Except.ok ⟨some 5, some n, none⟩⟩
    stPrune 43 ⟨"agntcy/ns/a", false⟩ destA sessClosed (by decide) (by decide)

/-- C9: whenever `handleCreateChannel` reports failure, the registry's
registered sessions are unchanged (no session retrievable by name appears or
disappears), and every fabric session it successfully created was handed to
`DeleteSessionAndWait` before returning — a failed create leaks neither a
registry entry nor a live fabric session. -/
theorem C9_createChannel_failure_cleanup :
    ∀ (fab : Fabric) (st : SessionsList) (msgID : Nat) (req : CreateChannelRequest)
      (st' : SessionsList) (evs : List FabricEvent) (resp : ControlMessage),
      nilConsistent st = true →
      handleCreateChannel fab st msgID req = (st', evs, resp) →
      resp.response.success = false →
      (∀ (n : String) (s : Session),
        GetSessionByName st' n = Except.ok s ↔ GetSessionByName st n = Except.ok s)
      ∧ (∀ (nm : Name) (mls : Bool) (sess : Session),
          FabricEvent.createOk nm mls sess ∈ evs → FabricEvent.deleteCall sess ∈ evs) := by
  intro fab st msgID req st' evs resp hcons heq hfail
  cases hsp : SplitID req.channelName with
  | error e =>
    simp only [handleCreateChannel, hsp, Prod.mk.injEq] at heq
    obtain ⟨rfl, rfl, rfl⟩ := heq
    exact ⟨fun n s => Iff.rfl, fun nm mls sess hmem => absurd hmem (by simp)⟩
  | ok ch =>
    cases hget : GetSessionByName st ch.render with
    | ok s0 =>
      simp only [handleCreateChannel, hsp, hget, Prod.mk.injEq] at heq
      obtain ⟨rfl, rfl, rfl⟩ := heq
      exact ⟨fun n s => Iff.rfl, fun nm mls sess hmem => absurd hmem (by simp)⟩
    | error e' =>
      cases hcr : fab.createSessionAndWait ch req.mlsEnabled with
      | error ef =>
        simp only [handleCreateChannel, hsp, hget, hcr, Prod.mk.injEq] at heq
        obtain ⟨rfl, rfl, rfl⟩ := heq
        refine ⟨fun n s => Iff.rfl, ?_⟩
        intro nm mls sess hmem
        simp at hmem
      | ok sess =>
        cases hadd : AddSession st sess with
        | mk st2 r =>
          cases r with
          | ok u =>
            cases u
            simp only [handleCreateChannel, hsp, hget, hcr, hadd, Prod.mk.injEq] at heq
            obtain ⟨rfl, rfl, rfl⟩ := heq
            simp [successResponse] at hfail
          | error e2 =>
            simp only [handleCreateChannel, hsp, hget, hcr, hadd, Prod.mk.injEq] at heq
            obtain ⟨rfl, rfl, rfl⟩ := heq
            constructor
            · have h2 : (AddSession st sess).2 = Except.error e2 := by rw [hadd]
              have hnames := addSession_err_getByName st sess e2 hcons h2
              have hst2 : (AddSession st sess).1 = st2 := by rw [hadd]
              intro n s
              rw [← hst2]
              exact hnames n s
            · intro nm mls sess' hmem
              rcases List.mem_cons.mp hmem with hh | hh
              · have hsess : sess' = sess := by
                  injection hh with h1 h2 h3
                rw [hsess]
                simp
              · simp at hh

theorem C9_createChannel_failure_cleanup_witness :
    (∀ (n : String) (s : Session),
      GetSessionByName stPrune n = Except.ok s ↔ GetSessionByName stPrune n = Except.ok s)
    ∧ (∀ (nm : Name) (mls : Bool) (sess : Session),
        FabricEvent.createOk nm mls sess ∈ ([] : List FabricEvent) →
        FabricEvent.deleteCall sess ∈ ([] : List FabricEvent)) :=
  C9_createChannel_failure_cleanup ⟨fun n _ => Except.ok ⟨some 5, some n, none⟩⟩
    stPrune 43 ⟨"agntcy/ns/a", false⟩ stPrune []
    (errorResponse 43 ("channel " ++ destA.render ++ " already exists"))
    (by decide) (by decide) (by decide)

/-- C10: receiver `Start` and `Shutdown` are idempotent under the `started`
flag: a second `Start` while started returns nil and changes nothing (no new
acceptor is spawned), and `Shutdown` when not started — including a second
`Shutdown` — returns nil without cancelling the listener context, deleting
sessions, or destroying the app. -/
theorem C10_receiver_start_shutdown_idempotent :
    (∀ r : ReceiverState, r.started = true → receiverStart r = (r, none))
    ∧ (∀ r : ReceiverState,
      receiverStart (receiverStart r).1 = ((receiverStart r).1, none))
    ∧ (∀ r : ReceiverState, r.started = false → receiverShutdown r = (r, none))
    ∧ (∀ r : ReceiverState,
      receiverShutdown (receiverShutdown r).1 = ((receiverShutdown r).1, none)) := by
  refine ⟨?_, ?_, ?_, ?_⟩
  · intro r h
    simp [receiverStart, h]
  · intro r
    by_cases h : r.started <;> simp [receiverStart, h]
  · intro r h
    simp [receiverShutdown, h]
  · intro r
    by_cases h : r.started <;> simp [receiverShutdown, h]

theorem C10_receiver_start_shutdown_idempotent_witness :
    receiverStart (receiverStart newReceiverState).1
      = ((receiverStart newReceiverState).1, none)
    ∧ receiverShutdown newReceiverState = (newReceiverState, none) :=
  ⟨C10_receiver_start_shutdown_idempotent.2.1 newReceiverState,
   C10_receiver_start_shutdown_idempotent.2.2.1 newReceiverState rfl⟩

end SlimOtel
